import Mathlib

/-!
Shallow embedding of the `coldest-vault` ingestion pipeline
(`src/ingestion/`): the per-file processing state machine
(`ingest.process_file`), corpus sequencing and batching (`ingest.main`),
text extraction dispatch (`ocr.process_document`), entity extraction
(`entity_extraction.EntityExtractor.extract`), embedding-input building
(`embeddings.build_text_for_embedding`), CSV export
(`ingest.export_to_csv`) and the index sink
(`typesense_client.TypeSenseClient`).

External collaborators (Google Drive download, the OCR backends' own
engines, the LLM backend, the embedding API, the TypeSense wire client)
are modelled as oracle parameters, exactly at the call boundaries the
Python code uses; everything on this side of those boundaries is
translated statement by statement from the source.

Python `str` operations are modelled by structurally recursive functions
over the character list of a Lean `String` (`py_strip` = `str.strip()`,
`py_take s n` = `s[:n]`, `py_len` = `len`, and so on), so that every
definition evaluates inside the kernel.
-/

namespace ColdestVault

set_option maxRecDepth 16000

/-! ## Python string primitives -/

/-- Python `len(s)` — strings index by code point, like `List Char`. -/
def py_len (s : String) : Nat := s.data.length

/-- Python `s[:n]`. -/
def py_take (s : String) (n : Nat) : String := ⟨s.data.take n⟩

/-- Python `s[n:]`. -/
def py_drop (s : String) (n : Nat) : String := ⟨s.data.drop n⟩

/-- Python `s.strip()`: leading and trailing whitespace removed. -/
def py_strip (s : String) : String :=
  ⟨((s.data.dropWhile Char.isWhitespace).reverse.dropWhile
      Char.isWhitespace).reverse⟩

/-- Python `s.startswith(pre)`. -/
def py_startswith (s pre : String) : Bool := pre.data.isPrefixOf s.data

/-- Python `sep.join(xs)`. -/
def py_join (sep : String) : List String → String
  | [] => ""
  | [x] => x
  | x :: y :: xs => x ++ sep ++ py_join sep (y :: xs)

/-- Worker for `s.split(sep)`: left-to-right, non-overlapping matches;
`fuel` bounds the recursion (callers pass the input length, which
suffices since every step consumes at least one character). -/
def py_split_go (sep : List Char) : Nat → List Char → List Char →
    List (List Char)
  | 0, cs, cur => [cur.reverse ++ cs]
  | _ + 1, [], cur => [cur.reverse]
  | fuel + 1, c :: rest, cur =>
    if sep.isPrefixOf (c :: rest) then
      cur.reverse :: py_split_go sep fuel ((c :: rest).drop sep.length) []
    else
      py_split_go sep fuel rest (c :: cur)

/-- Python `s.split(sep)` for a non-empty separator. -/
def py_split (s sep : String) : List String :=
  (py_split_go sep.data s.data.length s.data []).map (fun cs => ⟨cs⟩)

/-! ## Data model -/

/-- Model of `google_drive.DriveFile`: the listing-time snapshot of a source file. -/
structure DriveFile where
  id : String
  name : String
  mime_type : String
  web_view_link : Option String
deriving DecidableEq

/-- The entity record returned by `EntityExtractor.extract` /
`EntityExtractor._empty_result`: the five keys are always present. -/
structure Entities where
  people : List String
  locations : List String
  dates : List String
  summary : String
  publication_date : String
deriving DecidableEq

/-- The document dict assembled by `ingest.process_file` (embedding vectors
are modelled as exact rationals; the pipeline only moves them around). -/
structure Document where
  file_path : String
  file_name : String
  drive_file_id : String
  web_view_link : String
  folder_path : String
  source_type : String
  people : List String
  locations : List String
  dates : List String
  publication_date : String
  summary : String
  ocr_content : String
  text_for_search : String
  embedding : List Rat
  created_at : Nat
  updated_at : Nat
deriving DecidableEq

/-! ## ocr.py -/

/-- Constant `ocr.DOCX_MIME_TYPE`. -/
def DOCX_MIME_TYPE : String :=
  "application/vnd.openxmlformats-officedocument.wordprocessingml.document"

/-- Default value of `config.Settings.max_ocr_pages`. -/
def MAX_OCR_PAGES : Nat := 50

/-- Model of `OCREngine.process_images`, applied to the per-page texts the engine's
`extract_text` returns: pages with blank text are dropped, the rest are
labelled `--- Page i ---` (1-based) and joined with blank lines. -/
def process_images (pageTexts : List String) : String :=
  py_join "\n\n"
    (pageTexts.enum.filterMap (fun p =>
      if py_strip p.2 ≠ "" then
        some ("--- Page " ++ toString (p.1 + 1) ++ " ---\n" ++ p.2)
      else none))

/-- Oracle results of the external extraction backends for one file's
bytes: what `DirectPDFExtractor().extract_text`, `extract_docx_text`, the
OCR engine on each rasterized PDF page, and the OCR engine on the file as
a single image would return. `pdf_num_pages` is the page count of the PDF;
`pdf_page_ocr i` is the engine's text for page `i` (0-based). -/
structure ExtractionBackends where
  direct_pdf_text : String
  docx_text : String
  pdf_num_pages : Nat
  pdf_page_ocr : Nat → String
  image_ocr : String

/-- Model of `ocr.pdf_to_images`: keeps pages `1..max_pages` only
(`last_page=max_pages`): the rasterized page list, as per-page OCR input. -/
def pdf_to_images_ocr (b : ExtractionBackends) (maxPages : Nat) : List String :=
  (List.range (min b.pdf_num_pages maxPages)).map b.pdf_page_ocr

/-- Model of `ocr.process_document`: dispatch on the mime type; for PDFs, direct
extraction first, OCR fallback only when the stripped direct text is
shorter than `min_direct_chars` (200 at every call site). The second
component records whether the OCR fallback path ran (the spec's "stub
backend call-count" observation); unsupported mime types raise
(`Except.error`), caught by the caller. -/
def process_document (b : ExtractionBackends) (mime_type : String)
    (min_direct_chars : Nat) : Except String (String × Bool) :=
  if mime_type = DOCX_MIME_TYPE then
    .ok (b.docx_text, false)
  else if mime_type = "application/pdf" then
    if min_direct_chars ≤ py_len (py_strip b.direct_pdf_text) then
      .ok (b.direct_pdf_text, false)
    else
      .ok (process_images (pdf_to_images_ocr b MAX_OCR_PAGES), true)
  else if py_startswith mime_type "image/" then
    .ok (b.image_ocr, false)
  else
    .error ("Unsupported mime type: " ++ mime_type)

/-! ## embeddings.py -/

/-- Model of `embeddings.build_text_for_embedding`: labelled sections (summary,
people, locations, dates, first 5000 chars of OCR content), empty sources
omitted, joined with blank lines. -/
def build_text_for_embedding (ocr_content summary : String)
    (people locations dates : List String) : String :=
  let parts : List String :=
    (if summary ≠ "" then ["Summary: " ++ summary] else []) ++
    (if people ≠ [] then
      ["People mentioned: " ++ py_join ", " people] else []) ++
    (if locations ≠ [] then
      ["Locations: " ++ py_join ", " locations] else []) ++
    (if dates ≠ [] then ["Dates: " ++ py_join ", " dates] else []) ++
    (if ocr_content ≠ "" then ["Content: " ++ py_take ocr_content 5000] else [])
  py_join "\n\n" parts

/-! ## entity_extraction.py -/

/-- A decoded JSON object as far as `EntityExtractor.extract` inspects
it: each of the five keys may be absent (`none`), present with an
explicit JSON `null` (`some none`), or present with a value
(`some (some v)`) — Python's `dict.get` distinguishes the first case
from the other two. The decoding itself (`json.loads`) is an external
library, passed as an oracle. -/
structure ParsedJson where
  people : Option (Option (List String))
  locations : Option (Option (List String))
  dates : Option (Option (List String))
  summary : Option (Option String)
  publication_date : Option (Option String)

/-- A Python dict value of the entity record: a string list, a string,
or `None` — the value `result.get` hands through when the key is present
with a JSON `null`. -/
inductive EntityVal where
  | list (xs : List String)
  | str (s : String)
  | null
deriving DecidableEq

/-- Python `result.get(key, [])` for a list-valued key: the default
applies only when the key is absent; a present `null` is returned as
`None`. -/
def py_get_list (field : Option (Option (List String))) : EntityVal :=
  match field with
  | none => .list []
  | some none => .null
  | some (some xs) => .list xs

/-- Python `result.get(key, "")` for a string-valued key: the default
applies only when the key is absent; a present `null` is returned as
`None`. -/
def py_get_str (field : Option (Option String)) : EntityVal :=
  match field with
  | none => .str ""
  | some none => .null
  | some (some s) => .str s

/-- Model of `EntityExtractor._empty_result`, as the Python dict (key/value list). -/
def empty_result : List (String × EntityVal) :=
  [("people", .list []), ("locations", .list []), ("dates", .list []),
   ("summary", .str ""), ("publication_date", .str "")]

/-- The truncation applied by `EntityExtractor.extract` before the backend
call: `text[:max_chars]`, plus a visible marker when truncation occurred. -/
def truncate_text (text : String) (max_chars : Nat) : String :=
  if max_chars < py_len text then
    py_take text max_chars ++ "\n\n[Document truncated...]"
  else py_take text max_chars

/-- The markdown-fence stripping in `EntityExtractor.extract`: if the
response starts with three backticks, keep the text between the first pair
of fences, drop a leading `json` tag, and strip. -/
def strip_code_fence (content : String) : String :=
  if py_startswith content "\x60\x60\x60" then
    let piece := (py_split content "\x60\x60\x60").getD 1 ""
    let piece := if py_startswith piece "json" then py_drop piece 4 else piece
    py_strip piece
  else content

/-- Model of `EntityExtractor.extract`. `chat` is the backend call on
the truncated text (`Except.error` = any exception from the API call);
`json_loads` is Python's JSON decoder (`none` = `JSONDecodeError`). On
either failure the all-empty record is returned; otherwise absent keys
default to their empty forms via `result.get(key, default)`, while keys
present with a JSON `null` pass through as `None`. The result is the
Python dict, as a key/value list. -/
def extract (chat : String → Except Unit String)
    (json_loads : String → Option ParsedJson) (text : String) :
    List (String × EntityVal) :=
  let truncated_text := truncate_text text 15000
  match chat truncated_text with
  | .error _ => empty_result
  | .ok raw =>
    let content := py_strip raw
    let content := strip_code_fence content
    match json_loads content with
    | none => empty_result
    | some result =>
      [("people", py_get_list result.people),
       ("locations", py_get_list result.locations),
       ("dates", py_get_list result.dates),
       ("summary", py_get_str result.summary),
       ("publication_date", py_get_str result.publication_date)]

/-! ## ingest.py: constants and per-file processing -/

/-- Constant `ingest.EXCLUDED_FILE_NAMES`: exact names skipped (case-sensitive). -/
def EXCLUDED_FILE_NAMES : List String :=
  ["MG unpublished manuscript - New Cold War.docx",
   "Sadanand, Midhun - MG unpublished manuscript review",
   "MG writings & early research guidance.docx",
   "Ike, Truman Library Research Questions",
   "Dissertation_Compiled_12.17.15.docx"]

/-- Constant `ingest.FOLDER_LABEL`. -/
def FOLDER_LABEL : String := "MG Assorted Documents"

/-- Constant `ingest.SECONDARY_FOLDERS`. -/
def SECONDARY_FOLDERS : List String := ["MG Assorted Documents"]

/-- The dedup key built at both `ingest.process_file` (line 102) and the
`ingest.main` filter (line 224): `f"gdrive://{id}/{name}"`. -/
def dedup_key (id name : String) : String :=
  "gdrive://" ++ id ++ "/" ++ name

/-- The per-file oracles of `ingest.process_file`'s collaborators:
the Drive download (`Except.error` = any download exception), the
extraction backends for the downloaded bytes, the entity extractor
(total: it never throws), and the embedding client
(`Except.error` = retries exhausted, which re-raises). -/
structure FileOracles where
  download : Except Unit Unit
  backends : ExtractionBackends
  entity_extractor : String → Entities
  embeddings_generate : String → Except Unit (List Rat)

/-- Model of `ingest.process_file`: download → OCR/text extraction → entity
extraction → embedding → assembled document. Any raising step (download,
unsupported mime type, embedding failure) is caught by the enclosing
`try`/`except` and yields `none`; `now` is the wall-clock timestamp read
at assembly time. -/
def process_file (o : FileOracles) (file : DriveFile) (now : Nat) :
    Option Document :=
  match o.download with
  | .error _ => none
  | .ok _ =>
    match process_document o.backends file.mime_type 200 with
    | .error _ => none
    | .ok (extracted, _) =>
      let ocr_text :=
        if py_strip extracted = "" then "(No text could be extracted)"
        else extracted
      let entities := o.entity_extractor ocr_text
      let text_for_embedding := build_text_for_embedding ocr_text
        entities.summary entities.people entities.locations entities.dates
      match o.embeddings_generate text_for_embedding with
      | .error _ => none
      | .ok embedding =>
        let text_for_search :=
          file.name ++ " " ++ entities.summary ++ " " ++
          py_join " " entities.people ++ " " ++
          py_join " " entities.locations ++ " " ++
          py_join " " entities.dates ++ " " ++ py_take ocr_text 5000
        some
          { file_path := dedup_key file.id file.name,
            file_name := file.name,
            drive_file_id := file.id,
            web_view_link := file.web_view_link.getD "",
            folder_path := FOLDER_LABEL,
            source_type :=
              if FOLDER_LABEL ∈ SECONDARY_FOLDERS then "secondary"
              else "primary",
            people := entities.people,
            locations := entities.locations,
            dates := entities.dates,
            publication_date := entities.publication_date,
            summary := entities.summary,
            ocr_content := ocr_text,
            text_for_search := text_for_search,
            embedding := embedding,
            created_at := now,
            updated_at := now }

/-! ## ingest.py: corpus filtering (main, lines 219-229) -/

/-- The filter loop of `ingest.main`: drop exact-name-excluded files, then
drop files whose dedup key is already indexed, then apply `--limit`. -/
def files_to_process (existing_paths : List String)
    (all_files : List DriveFile) (limit : Option Nat) : List DriveFile :=
  let filtered := all_files.filter (fun f =>
    !(decide (f.name ∈ EXCLUDED_FILE_NAMES)) &&
    !(decide (dedup_key f.id f.name ∈ existing_paths)))
  match limit with
  | some n => filtered.take n
  | none => filtered

/-! ## ingest.py: processing loop with batching (main, lines 245-275) -/

/-- The loop state of `ingest.main`: the pending `processed_documents`
buffer, the flushes handed to `index_documents` so far, and
`failed_count`. -/
structure RunState where
  processed_documents : List Document
  flushes : List (List Document)
  failed_count : Nat
deriving DecidableEq

/-- One iteration of the processing loop: append a successful document and
flush when the buffer reaches `batch_size`; count a failure otherwise. -/
def loop_step (batch_size : Nat) (s : RunState) (r : Option Document) :
    RunState :=
  match r with
  | some doc =>
    let pending := s.processed_documents ++ [doc]
    if batch_size ≤ pending.length then
      { processed_documents := [], flushes := s.flushes ++ [pending],
        failed_count := s.failed_count }
    else
      { s with processed_documents := pending }
  | none => { s with failed_count := s.failed_count + 1 }

/-- The whole processing loop over the per-file outcomes, from the empty
initial state. -/
def run_loop (batch_size : Nat) (results : List (Option Document)) :
    RunState :=
  results.foldl (loop_step batch_size) ⟨[], [], 0⟩

/-- All calls made to `TypeSenseClient.index_documents` during a run: the
intra-loop flushes plus the final remainder flush (lines 274-275), which
is skipped when the buffer is empty. -/
def all_flushes (batch_size : Nat) (results : List (Option Document)) :
    List (List Document) :=
  let s := run_loop batch_size results
  s.flushes ++ (if s.processed_documents = [] then []
                else [s.processed_documents])

/-! ## typesense_client.py -/

/-- Worker for the sub-batch partition of
`TypeSenseClient.index_documents`; `fuel` bounds the recursion (callers
pass the document count, which suffices since every step consumes at
least one document when `batch_size ≠ 0`). -/
def sub_batches_go (batch_size : Nat) : Nat → List Document →
    List (List Document)
  | 0, _ => []
  | _ + 1, [] => []
  | fuel + 1, d :: ds =>
    (d :: ds).take batch_size ::
      sub_batches_go batch_size fuel ((d :: ds).drop batch_size)

/-- The sub-batch partition of `TypeSenseClient.index_documents`
(`range(0, len(documents), batch_size)` with slices of `batch_size`):
the successive bulk-import calls made to the backend. `batch_size = 0`
raises in Python (`range` with step 0) and is never used. -/
def sub_batches (batch_size : Nat) (documents : List Document) :
    List (List Document) :=
  if batch_size = 0 then []
  else sub_batches_go batch_size documents.length documents

/-- Model of `TypeSenseClient.index_documents` with the sink's fixed internal
sub-batch size of 40: the per-record success tally summed over the
sub-batch import calls, where `write_ok d` is the backend's per-item `success`
field for `d` (a whole-sub-batch transport failure would contribute 0;
`write_ok` covers the per-item accounting the claims exercise). -/
def index_documents_success (write_ok : Document → Bool)
    (documents : List Document) : Nat :=
  ((sub_batches 40 documents).map
    (fun b => (b.filter write_ok).length)).sum

/-- The bulk-import (upsert) calls the backend receives over a whole run:
each `index_documents` flush is further split into sub-batches of 40. -/
def upsert_calls (batch_size : Nat) (results : List (Option Document)) :
    List (List Document) :=
  ((all_flushes batch_size results).map (sub_batches 40)).flatten

/-- Worker for `TypeSenseClient.get_existing_file_paths` pagination;
`fuel` bounds the recursion (callers pass the index length, which
suffices since every recursive step consumes `per_page ≥ 1` documents). -/
def get_existing_file_paths_go (per_page : Nat) : Nat → List Document →
    List String → List String
  | 0, index, existing =>
    if index.take per_page = [] then existing
    else existing ++ (index.take per_page).map Document.file_path
  | fuel + 1, index, existing =>
    if index.take per_page = [] then existing
    else
      let existing := existing ++ (index.take per_page).map Document.file_path
      if (index.take per_page).length < per_page then existing
      else get_existing_file_paths_go per_page fuel (index.drop per_page)
        existing

/-- Model of `TypeSenseClient.get_existing_file_paths`: paginate the whole index
(`index` is the collection's document list in search order) with pages of
`per_page = 250`, stopping on an empty or short page, collecting each
hit's `file_path`. -/
def get_existing_file_paths (index : List Document) : List String :=
  get_existing_file_paths_go 250 index.length index []

/-! ## ingest.py: CSV export and summary (lines 132-153, 278-288) -/

/-- The list-flattening of `ingest.export_to_csv`: `'; '.join(row[key])`. -/
def flatten_list_field (xs : List String) : String :=
  py_join "; " xs

/-- One CSV row of `ingest.export_to_csv`, in the fixed field order
(embedding excluded), with the three list fields flattened. -/
def csv_row (doc : Document) : List String :=
  [doc.file_path, doc.file_name, doc.drive_file_id, doc.web_view_link,
   flatten_list_field doc.people, flatten_list_field doc.locations,
   flatten_list_field doc.dates, doc.summary, doc.ocr_content]

/-- Model of `ingest.export_to_csv` on a document list: the data rows written
(header aside); an empty list writes nothing. -/
def export_to_csv (documents : List Document) : List (List String) :=
  documents.map csv_row

/-- The documents `ingest.main` hands to `export_to_csv` when
`--export-csv` is given (line 278): the `processed_documents` buffer left
after the loop — the final flush does not clear it — and no export happens
at all when that buffer is empty. -/
def exported_documents (batch_size : Nat)
    (results : List (Option Document)) : List Document :=
  (run_loop batch_size results).processed_documents

/-- The summary counts printed by `ingest.main` (lines 285-287):
`success_count = len(files_to_process) - failed_count`, and
`failed_count`. -/
def summary_counts (num_files_to_process : Nat)
    (batch_size : Nat) (results : List (Option Document)) : Nat × Nat :=
  let failed := (run_loop batch_size results).failed_count
  (num_files_to_process - failed, failed)

/-! ## Concrete instances used to exercise the model -/

/-- A PDF whose embedded text is empty (a scanned image). -/
def scanned_pdf_backends : ExtractionBackends :=
  { direct_pdf_text := "", docx_text := "", pdf_num_pages := 3,
    pdf_page_ocr := fun _ => "ocr text", image_ocr := "" }

/-- A 200-character direct-extraction yield, exactly at the threshold. -/
def typed_pdf_text : String := ⟨List.replicate 200 'a'⟩

/-- A PDF whose embedded text meets the quality gate. -/
def typed_pdf_backends : ExtractionBackends :=
  { direct_pdf_text := typed_pdf_text, docx_text := "", pdf_num_pages := 3,
    pdf_page_ocr := fun _ => "ocr text", image_ocr := "" }

/-- A sample listing entry: a single PNG in the corpus. -/
def sample_file : DriveFile := ⟨"id0", "a.png", "image/png", none⟩

/-- Oracles on which every stage succeeds. -/
def ok_oracles : FileOracles :=
  { download := .ok (),
    backends := { direct_pdf_text := "", docx_text := "", pdf_num_pages := 0,
                  pdf_page_ocr := fun _ => "", image_ocr := "some image text" },
    entity_extractor := fun _ => ⟨[], [], [], "", ""⟩,
    embeddings_generate := fun _ => .ok [] }

/-- The spec's receipt scenario: one image file `receipt.png`. -/
def receipt_file : DriveFile := ⟨"fileid123", "receipt.png", "image/png", none⟩

/-- The spec's receipt-scenario stubs: OCR, entity and embedding backends
returning the prescribed values. -/
def receipt_oracles : FileOracles :=
  { download := .ok (),
    backends := { direct_pdf_text := "", docx_text := "", pdf_num_pages := 0,
                  pdf_page_ocr := fun _ => "",
                  image_ocr := "Paid $40 to J. Smith on 3 June 1955" },
    entity_extractor := fun _ =>
      ⟨["J. Smith"], [], ["3 June 1955"], "A payment record.", "1955"⟩,
    embeddings_generate := fun _ => .ok [0.1, 0.2, 0.3] }

/-- A decoded backend response whose `people` key is present with an
explicit JSON `null` — what `json.loads` yields on
`{"people": null, "locations": [], "dates": [], "summary": "A doc.",
"publication_date": ""}`. -/
def null_people_parsed : ParsedJson :=
  { people := some none, locations := some (some []),
    dates := some (some []), summary := some (some "A doc."),
    publication_date := some (some "") }

/-- A concrete document, used to drive the loop model on explicit runs. -/
def dummy_document : Document :=
  { file_path := "gdrive://x/y", file_name := "y", drive_file_id := "x",
    web_view_link := "", folder_path := "MG Assorted Documents",
    source_type := "secondary", people := [], locations := [], dates := [],
    publication_date := "", summary := "", ocr_content := "t",
    text_for_search := "t", embedding := [], created_at := 0,
    updated_at := 0 }

/-! ## Helper lemmas -/

/-- Any document `process_file` returns carries the dedup key
`gdrive://<id>/<name>` of its input file as `file_path`, whatever the
oracles and the timestamp did. -/
lemma process_file_some_file_path (o : FileOracles) (f : DriveFile)
    (now : Nat) (doc : Document) (h : process_file o f now = some doc) :
    doc.file_path = dedup_key f.id f.name := by
  unfold process_file at h
  split at h
  · exact Option.noConfusion h
  split at h
  · exact Option.noConfusion h
  split at h <;> split at h <;> simp only [] at h <;> split at h <;>
    first
      | exact Option.noConfusion h
      | (have hd := Option.some.inj h; subst hd; rfl)

/-! ## C3 -/

/-- Claim C3. PDF quality-gated fallback: for every PDF input, direct
embedded-text extraction is attempted first; the OCR backend runs (on the
rasterized pages, capped at `MAX_OCR_PAGES`) exactly when the stripped
direct yield is strictly below the 200-character threshold, and at or
above the threshold the direct text is returned with the OCR path never
taken. -/
theorem pdf_quality_gated_fallback (b : ExtractionBackends) :
    (py_len (py_strip b.direct_pdf_text) < 200 →
      process_document b "application/pdf" 200 =
        .ok (process_images (pdf_to_images_ocr b MAX_OCR_PAGES), true)) ∧
    (200 ≤ py_len (py_strip b.direct_pdf_text) →
      process_document b "application/pdf" 200 =
        .ok (b.direct_pdf_text, false)) ∧
    (∀ text, process_document b "application/pdf" 200 = .ok (text, true) ↔
      (text = process_images (pdf_to_images_ocr b MAX_OCR_PAGES) ∧
        py_len (py_strip b.direct_pdf_text) < 200)) := by
  have hmime : ¬(("application/pdf" : String) = DOCX_MIME_TYPE) := by decide
  by_cases h : 200 ≤ py_len (py_strip b.direct_pdf_text)
  · refine ⟨fun hlt => absurd h (by omega), fun _ => ?_, fun text => ?_⟩
    · unfold process_document
      rw [if_neg hmime, if_pos rfl, if_pos h]
    · constructor
      · intro heq
        unfold process_document at heq
        rw [if_neg hmime, if_pos rfl, if_pos h] at heq
        simp at heq
      · rintro ⟨-, hlt⟩
        omega
  · refine ⟨fun _ => ?_, fun hge => absurd hge h, fun text => ?_⟩
    · unfold process_document
      rw [if_neg hmime, if_pos rfl, if_neg h]
    · constructor
      · intro heq
        unfold process_document at heq
        rw [if_neg hmime, if_pos rfl, if_neg h] at heq
        simp only [Except.ok.injEq, Prod.mk.injEq] at heq
        exact ⟨heq.1.symm, by omega⟩
      · rintro ⟨htext, -⟩
        subst htext
        unfold process_document
        rw [if_neg hmime, if_pos rfl, if_neg h]

/-- A scanned PDF (empty direct yield) takes the OCR path; a typed PDF
with a 200-character yield returns the direct text and never OCRs. -/
theorem pdf_quality_gated_fallback_witness :
    process_document scanned_pdf_backends "application/pdf" 200 =
      .ok (process_images (pdf_to_images_ocr scanned_pdf_backends
        MAX_OCR_PAGES), true) ∧
    process_document typed_pdf_backends "application/pdf" 200 =
      .ok (typed_pdf_text, false) :=
  ⟨(pdf_quality_gated_fallback scanned_pdf_backends).1 (by decide),
   (pdf_quality_gated_fallback typed_pdf_backends).2.1 (by decide)⟩

/-! ## C8 -/

/-- Claim C8. Dedup-key determinism and stability: the derived key is
exactly `"gdrive://" ++ id ++ "/" ++ name`; any committed document's
`file_path` equals the key of its file, independently of the oracles and
of the timestamp, so two evaluations for the same id and name — across
runs, restarts, or different backends — produce byte-identical keys. -/
theorem dedup_key_stability :
    (∀ id name, dedup_key id name = "gdrive://" ++ id ++ "/" ++ name) ∧
    (∀ o f now doc, process_file o f now = some doc →
      doc.file_path = dedup_key f.id f.name) ∧
    (∀ o o2 f f2 now now2 doc doc2, f.id = f2.id → f.name = f2.name →
      process_file o f now = some doc →
      process_file o2 f2 now2 = some doc2 →
      doc.file_path = doc2.file_path) := by
  refine ⟨fun id name => rfl, process_file_some_file_path, ?_⟩
  intro o o2 f f2 now now2 doc doc2 hid hname h h2
  rw [process_file_some_file_path o f now doc h,
    process_file_some_file_path o2 f2 now2 doc2 h2, hid, hname]

/-- The key facts at a concrete successful run of `process_file`. -/
theorem dedup_key_stability_witness :
    (process_file ok_oracles sample_file 0).map Document.file_path =
      some (dedup_key "id0" "a.png") := by
  cases hd : process_file ok_oracles sample_file 0 with
  | none => exact absurd hd (by decide)
  | some d =>
    have hk := dedup_key_stability.2.1 ok_oracles sample_file 0 d hd
    simp [hk]
    rfl

/-! ## C4 -/

/-- Claim C4, counterexample. A backend response whose `people` key is
present with an explicit JSON `null` decodes successfully, and
`result.get("people", [])` returns the present `None` — the default only
covers absent keys — so the extracted dict maps `"people"` to a null
value, refuting "none of them null". The raw content stands for the JSON
body shown at `null_people_parsed`. -/
theorem entity_extractor_totality_counterexample :
    (extract (fun _ => .ok "\x7b\"people\": null, ...\x7d")
        (fun _ => some null_people_parsed) "some document text").lookup
      "people" = some EntityVal.null ∧
    some EntityVal.null ≠ some (EntityVal.list []) :=
  ⟨rfl, by decide⟩

/-- Claim C4, amended. Entity extractor totality with null passthrough:
`extract` is a total function (it never raises); for every input text
and every behaviour of the chat backend and of the JSON decoder, the
returned dict has exactly the five keys `people, locations, dates,
summary, publication_date` (so none is absent); a backend-call failure
or a JSON-decode failure yields the all-empty record; keys absent from
an otherwise-valid decoded object default to their empty forms; but a
key present with an explicit JSON `null` is passed through as a null
value, since `result.get(key, default)` applies the default only to
absent keys. -/
theorem entity_extractor_totality_amended
    (chat : String → Except Unit String)
    (json_loads : String → Option ParsedJson) (text : String) :
    ((extract chat json_loads text).map Prod.fst =
      ["people", "locations", "dates", "summary", "publication_date"]) ∧
    (∀ e, chat (truncate_text text 15000) = .error e →
      extract chat json_loads text = empty_result) ∧
    (∀ raw, chat (truncate_text text 15000) = .ok raw →
      json_loads (strip_code_fence (py_strip raw)) = none →
      extract chat json_loads text = empty_result) ∧
    (∀ raw r, chat (truncate_text text 15000) = .ok raw →
      json_loads (strip_code_fence (py_strip raw)) = some r →
      extract chat json_loads text =
        [("people", py_get_list r.people),
         ("locations", py_get_list r.locations),
         ("dates", py_get_list r.dates),
         ("summary", py_get_str r.summary),
         ("publication_date", py_get_str r.publication_date)]) ∧
    (py_get_list none = .list [] ∧ py_get_str none = .str "" ∧
      py_get_list (some none) = .null ∧
      py_get_str (some none) = .null) := by
  refine ⟨?_, ?_, ?_, ?_, rfl, rfl, rfl, rfl⟩
  · simp only [extract]
    rcases hc : chat (truncate_text text 15000) with e | raw
    · rfl
    · rcases hj : json_loads (strip_code_fence (py_strip raw)) with _ | r
      · simp [hj, empty_result]
      · simp [hj]
  · intro e hc
    simp only [extract]
    rw [hc]
  · intro raw hc hj
    simp only [extract]
    rw [hc]
    simp only []
    rw [hj]
  · intro raw r hc hj
    simp only [extract]
    rw [hc]
    simp only []
    rw [hj]

/-- The amended totality contract at concrete inputs: a failing backend
on the empty string yields the all-empty record with the five keys. -/
theorem entity_extractor_totality_amended_witness :
    extract (fun _ => .error ()) (fun _ => none) "" = empty_result ∧
    (extract (fun _ => .error ()) (fun _ => none) "").map Prod.fst =
      ["people", "locations", "dates", "summary", "publication_date"] :=
  ⟨(entity_extractor_totality_amended (fun _ => .error ()) (fun _ => none)
      "").2.1 () rfl,
   (entity_extractor_totality_amended (fun _ => .error ()) (fun _ => none)
      "").1⟩

/-! ## Loop invariants of the batching loop -/

/-- The failure counter only counts the `None` outcomes. -/
lemma foldl_loop_failed (B : Nat) (results : List (Option Document)) :
    ∀ (p : List Document) (F : List (List Document)) (k : Nat),
      (results.foldl (loop_step B) ⟨p, F, k⟩).failed_count =
        k + results.countP (fun r => r.isNone) := by
  induction results with
  | nil => intro p F k; simp
  | cons r rs ih =>
    intro p F k
    cases r with
    | none =>
      simp only [List.foldl_cons, loop_step, List.countP_cons]
      rw [ih]
      simp [Option.isNone]
      omega
    | some d =>
      simp only [List.foldl_cons, loop_step, List.countP_cons]
      by_cases hle : B ≤ (p ++ [d]).length
      · rw [if_pos hle, ih]
        simp [Option.isNone]
      · rw [if_neg hle, ih]
        simp [Option.isNone]

/-- Everything flushed plus the pending buffer is exactly the successful
documents, in order. -/
lemma foldl_loop_join (B : Nat) (results : List (Option Document)) :
    ∀ (p : List Document) (F : List (List Document)) (k : Nat),
      (results.foldl (loop_step B) ⟨p, F, k⟩).flushes.flatten ++
        (results.foldl (loop_step B) ⟨p, F, k⟩).processed_documents =
      F.flatten ++ (p ++ results.filterMap id) := by
  induction results with
  | nil => intro p F k; simp
  | cons r rs ih =>
    intro p F k
    cases r with
    | none =>
      simp only [List.foldl_cons, loop_step, List.filterMap_cons_none]
      exact ih p F (k + 1)
    | some d =>
      simp only [List.foldl_cons, loop_step, List.filterMap_cons_some]
      by_cases hle : B ≤ (p ++ [d]).length
      · rw [if_pos hle, ih]
        simp
      · rw [if_neg hle, ih]
        simp

/-- Sizes: starting under the batch size, every loop flush has size
exactly `B` — there are `(|p| + N) / B` of them for `N` successes — and
the pending buffer ends at size `(|p| + N) % B`. -/
lemma foldl_loop_lengths (B : Nat) (results : List (Option Document)) :
    ∀ (p : List Document) (F : List (List Document)) (k : Nat),
      p.length < B →
      ((results.foldl (loop_step B) ⟨p, F, k⟩).flushes.map List.length =
        F.map List.length ++
          List.replicate
            ((p.length + results.countP (fun r => r.isSome)) / B) B) ∧
      (results.foldl (loop_step B) ⟨p, F, k⟩).processed_documents.length =
        (p.length + results.countP (fun r => r.isSome)) % B := by
  induction results with
  | nil =>
    intro p F k hp
    constructor
    · simp [Nat.div_eq_of_lt hp]
    · simp [Nat.mod_eq_of_lt hp]
  | cons r rs ih =>
    intro p F k hp
    cases r with
    | none =>
      simp only [List.foldl_cons, loop_step]
      have hcnt : List.countP (fun r => r.isSome) (none :: rs) =
          rs.countP (fun r => (r : Option Document).isSome) := by simp
      rw [hcnt]
      exact ih p F (k + 1) hp
    | some d =>
      simp only [List.foldl_cons, loop_step]
      have hcnt : List.countP (fun r => r.isSome) (some d :: rs) =
          rs.countP (fun r => (r : Option Document).isSome) + 1 := by simp
      rw [hcnt]
      by_cases hle : B ≤ (p ++ [d]).length
      · rw [if_pos hle]
        have hlen : (p ++ [d]).length = B := by
          simp only [List.length_append, List.length_singleton]
          simp only [List.length_append, List.length_singleton] at hle
          omega
        have h0 : ([] : List Document).length < B := by
          simp only [List.length_nil]
          omega
        obtain ⟨ih1, ih2⟩ := ih [] (F ++ [p ++ [d]]) k h0
        constructor
        · rw [ih1]
          simp only [List.length_nil, Nat.zero_add, List.map_append,
            List.map_cons, List.map_nil, hlen]
          have harith :
              (p.length + (rs.countP (fun r => r.isSome) + 1)) / B =
                rs.countP (fun r => r.isSome) / B + 1 := by
            have hpl : p.length + 1 = B := by
              simp only [List.length_append, List.length_singleton] at hlen
              omega
            have : p.length + (rs.countP (fun r => r.isSome) + 1) =
                rs.countP (fun r => r.isSome) + B := by omega
            rw [this, Nat.add_div_right _ (by omega)]
          rw [harith]
          simp [List.replicate_succ]
        · rw [ih2]
          simp only [List.length_nil, Nat.zero_add]
          have hpl : p.length + 1 = B := by
            simp only [List.length_append, List.length_singleton] at hlen
            omega
          have : p.length + (rs.countP (fun r => r.isSome) + 1) =
              rs.countP (fun r => r.isSome) + B := by omega
          rw [this, Nat.add_mod_right]
      · rw [if_neg hle]
        have hp' : (p ++ [d]).length < B := by omega
        obtain ⟨ih1, ih2⟩ := ih (p ++ [d]) F k hp'
        have hpl : (p ++ [d]).length = p.length + 1 := by simp
        constructor
        · rw [ih1, hpl]
          have : p.length + 1 + rs.countP (fun r => r.isSome) =
              p.length + (rs.countP (fun r => r.isSome) + 1) := by omega
          rw [this]
        · rw [ih2, hpl]
          have : p.length + 1 + rs.countP (fun r => r.isSome) =
              p.length + (rs.countP (fun r => r.isSome) + 1) := by omega
          rw [this]

/-- Specialisation of `foldl_loop_failed` to `run_loop`. -/
lemma run_loop_failed (B : Nat) (results : List (Option Document)) :
    (run_loop B results).failed_count =
      results.countP (fun r => r.isNone) := by
  simpa using foldl_loop_failed B results [] [] 0

/-- All flushed documents of a run, in order, are exactly the successful
results. -/
lemma all_flushes_flatten (B : Nat) (results : List (Option Document)) :
    (all_flushes B results).flatten = results.filterMap id := by
  have h := foldl_loop_join B results [] [] 0
  simp only [all_flushes, run_loop]
  by_cases hp :
      (results.foldl (loop_step B) ⟨[], [], 0⟩).processed_documents = []
  · rw [if_pos hp]
    rw [hp] at h
    simpa using h
  · rw [if_neg hp]
    simp only [List.flatten_append, List.flatten_cons, List.flatten_nil,
      List.append_nil]
    simpa using h

/-- Specialisation of `foldl_loop_lengths` to `run_loop`. -/
lemma run_loop_lengths (B : Nat) (results : List (Option Document))
    (hB : 1 ≤ B) :
    (run_loop B results).flushes.map List.length =
      List.replicate ((results.countP (fun r => r.isSome)) / B) B ∧
    (run_loop B results).processed_documents.length =
      (results.countP (fun r => r.isSome)) % B := by
  have h := foldl_loop_lengths B results [] [] 0 (by simpa using hB)
  simpa using h

/-- Flush sizes over a whole run: `N / B` full batches of size `B`, plus
a final remainder batch of size `N % B` when the remainder is not zero. -/
lemma all_flushes_map_length (B : Nat) (results : List (Option Document))
    (hB : 1 ≤ B) :
    (all_flushes B results).map List.length =
      List.replicate ((results.countP (fun r => r.isSome)) / B) B ++
        (if results.countP (fun r => r.isSome) % B = 0 then []
         else [results.countP (fun r => r.isSome) % B]) := by
  obtain ⟨h1, h2⟩ := run_loop_lengths B results hB
  simp only [all_flushes]
  by_cases hp : (run_loop B results).processed_documents = []
  · rw [if_pos hp]
    have hmod : results.countP (fun r => r.isSome) % B = 0 := by
      rw [← h2, hp, List.length_nil]
    rw [if_pos hmod]
    simpa using h1
  · rw [if_neg hp]
    have hmod : results.countP (fun r => r.isSome) % B ≠ 0 := by
      rw [← h2]
      simpa [List.length_eq_zero] using hp
    rw [if_neg hmod]
    simp only [List.map_append, List.map_cons, List.map_nil, h1, h2]

/-! ## C2 -/

/-- Claim C2. Partial-failure isolation: a hard failure on one file
(download error, embedding retries exhausted, unsupported content type)
only makes `process_file` return `None` for that file; the loop counts it
and continues — the failure tally is exactly the number of failed files
and every successful document is still flushed. In particular on a corpus
of 5 files whose third file fails at the embedding call while all index
writes succeed, the run indexes exactly 4 documents, reports 1 failure,
and does not terminate early (files 4 and 5 are processed and flushed). -/
theorem partial_failure_isolation :
    (∀ o f now, o.download = .error () → process_file o f now = none) ∧
    (∀ (o : FileOracles) f now,
      (∀ s, o.embeddings_generate s = .error ()) →
      process_file o f now = none) ∧
    (∀ o f now, f.mime_type ≠ DOCX_MIME_TYPE →
      f.mime_type ≠ "application/pdf" →
      py_startswith f.mime_type "image/" = false →
      process_file o f now = none) ∧
    (∀ B results, (run_loop B results).failed_count =
      results.countP (fun r => r.isNone)) ∧
    (∀ B results, (all_flushes B results).flatten = results.filterMap id) ∧
    (∀ d1 d2 d4 d5 : Document,
      (run_loop 10 [some d1, some d2, none, some d4, some d5]).failed_count
          = 1 ∧
      ((all_flushes 10 [some d1, some d2, none, some d4, some d5]).map
        (index_documents_success (fun _ => true))).sum = 4 ∧
      all_flushes 10 [some d1, some d2, none, some d4, some d5] =
        [[d1, d2, d4, d5]]) := by
  refine ⟨?_, ?_, ?_, run_loop_failed, all_flushes_flatten, ?_⟩
  · intro o f now hdl
    unfold process_file
    rw [hdl]
  · intro o f now hemb
    unfold process_file
    rcases hdl : o.download with e | u
    · rfl
    rcases hpd : process_document o.backends f.mime_type 200 with e | pair
    · rfl
    obtain ⟨extracted, flag⟩ := pair
    simp only [hemb]
  · intro o f now h1 h2 h3
    unfold process_file
    rcases hdl : o.download with e | u
    · rfl
    have hpd : process_document o.backends f.mime_type 200 =
        .error ("Unsupported mime type: " ++ f.mime_type) := by
      unfold process_document
      rw [if_neg h1, if_neg h2, if_neg (by simp [h3])]
    rw [hpd]
  · intro d1 d2 d4 d5
    refine ⟨rfl, rfl, rfl⟩

/-- The isolation facts at concrete inputs: a download failure yields
`None` for that file alone. -/
theorem partial_failure_isolation_witness :
    process_file
      { download := .error (), backends := receipt_oracles.backends,
        entity_extractor := receipt_oracles.entity_extractor,
        embeddings_generate := receipt_oracles.embeddings_generate }
      receipt_file 0 = none :=
  partial_failure_isolation.1 _ receipt_file 0 rfl

/-! ## C10 -/

/-- Claim C10. Pending-buffer invariant: with a positive batch size `B`, at
every loop boundary (i.e. after any outcome sequence) the pending
`processed_documents` buffer holds strictly fewer than `B` documents — in
particular never more than `B`; the buffer is flushed exactly when it
reaches `B` (every intra-loop flush has size exactly `B`); and the
concatenation of all flushes, remainder included, is exactly the list of
successfully processed documents, so each is submitted in exactly one
flush call. -/
theorem pending_buffer_invariant (B : Nat) (hB : 1 ≤ B) :
    (∀ results,
      (run_loop B results).processed_documents.length < B) ∧
    (∀ results, ∀ flush ∈ (run_loop B results).flushes,
      flush.length = B) ∧
    (∀ results, (all_flushes B results).flatten = results.filterMap id) := by
  refine ⟨?_, ?_, fun results => all_flushes_flatten B results⟩
  · intro results
    obtain ⟨-, h2⟩ := run_loop_lengths B results hB
    rw [h2]
    exact Nat.mod_lt _ (by omega)
  · intro results flush hmem
    obtain ⟨h1, -⟩ := run_loop_lengths B results hB
    have : flush.length ∈ (run_loop B results).flushes.map List.length :=
      List.mem_map_of_mem List.length hmem
    rw [h1] at this
    exact (List.eq_of_mem_replicate this)

/-- The invariant at a concrete run: batch size 2 over three successes
leaves one pending document, after one flush of exactly two. -/
theorem pending_buffer_invariant_witness :
    (run_loop 2 [some dummy_document, some dummy_document,
      some dummy_document]).processed_documents.length < 2 :=
  (pending_buffer_invariant 2 (by omega)).1
    [some dummy_document, some dummy_document, some dummy_document]

/-! ## C6: sub-batch and ceiling-division helpers -/

/-- No documents, no sub-batches, whatever the fuel. -/
lemma sub_batches_go_nil (bs : Nat) (fuel : Nat) :
    sub_batches_go bs fuel [] = [] := by
  cases fuel <;> rfl

/-- A non-empty list of at most 40 documents is imported in exactly one
sub-batch, the whole list. -/
lemma sub_batches_small (l : List Document) (hne : l ≠ [])
    (hle : l.length ≤ 40) : sub_batches 40 l = [l] := by
  unfold sub_batches
  rw [if_neg (by omega)]
  cases l with
  | nil => exact absurd rfl hne
  | cons d ds =>
    have htake : (d :: ds).take 40 = d :: ds := List.take_of_length_le hle
    have hdrop : (d :: ds).drop 40 = [] := List.drop_eq_nil_of_le hle
    calc sub_batches_go 40 (d :: ds).length (d :: ds)
        = (d :: ds).take 40 ::
            sub_batches_go 40 ds.length ((d :: ds).drop 40) := rfl
      _ = (d :: ds) :: sub_batches_go 40 ds.length [] := by rw [htake, hdrop]
      _ = [d :: ds] := by rw [sub_batches_go_nil]

/-- If every flush forms a single sub-batch, the import calls are the
flushes themselves. -/
lemma flatten_map_sub_batches (L : List (List Document))
    (h : ∀ l ∈ L, sub_batches 40 l = [l]) :
    (L.map (sub_batches 40)).flatten = L := by
  induction L with
  | nil => rfl
  | cons l ls ih =>
    simp only [List.map_cons, List.flatten_cons]
    rw [h l (by simp), ih (fun x hx => h x (by simp [hx]))]
    rfl

/-- The last element of a constant list. -/
lemma getLast?_replicate (n : Nat) (a : Nat) :
    (List.replicate n a).getLast? = if n = 0 then none else some a := by
  induction n with
  | zero => rfl
  | succ n ih =>
    rw [List.replicate_succ]
    cases n with
    | zero => rfl
    | succ m =>
      rw [List.replicate_succ, List.getLast?_cons_cons,
        ← List.replicate_succ]
      simpa using ih

/-- Ceiling division, written as the flush count produces it. -/
lemma div_ceil_eq (N B : Nat) (hB : 1 ≤ B) :
    N / B + (if N % B = 0 then 0 else 1) = (N + B - 1) / B := by
  have hq := Nat.div_add_mod N B
  by_cases hmod : N % B = 0
  · rw [if_pos hmod]
    have he : N + B - 1 = B * (N / B) + (B - 1) := by omega
    rw [he, Nat.mul_add_div (by omega)]
    have h0 : (B - 1) / B = 0 := Nat.div_eq_of_lt (by omega)
    omega
  · rw [if_neg hmod]
    have hlt : N % B < B := Nat.mod_lt _ (by omega)
    have he : N + B - 1 = B * (N / B + 1) + (N % B - 1) := by
      have hms : B * (N / B + 1) = B * (N / B) + B := by ring
      omega
    rw [he, Nat.mul_add_div (by omega)]
    have h0 : (N % B - 1) / B = 0 := Nat.div_eq_of_lt (by omega)
    omega

/-- Under `1 ≤ B ≤ 40`, every flush of a run is one bulk-import call. -/
lemma upsert_calls_eq_all_flushes (B : Nat)
    (results : List (Option Document)) (hB1 : 1 ≤ B) (hB40 : B ≤ 40) :
    upsert_calls B results = all_flushes B results := by
  have hmap := all_flushes_map_length B results hB1
  have hsmall : ∀ l ∈ all_flushes B results, sub_batches 40 l = [l] := by
    intro l hl
    have hlen : l.length ∈ (all_flushes B results).map List.length :=
      List.mem_map_of_mem _ hl
    rw [hmap] at hlen
    rcases List.mem_append.mp hlen with hrep | htail
    · have hB' := List.eq_of_mem_replicate hrep
      refine sub_batches_small l ?_ (by omega)
      intro hnil
      rw [hnil] at hB'
      simp at hB'
      omega
    · by_cases hmod : results.countP (fun r => r.isSome) % B = 0
      · rw [if_pos hmod] at htail
        simp at htail
      · rw [if_neg hmod] at htail
        simp only [List.mem_singleton] at htail
        have hlt : results.countP (fun r => r.isSome) % B < B :=
          Nat.mod_lt _ (by omega)
        refine sub_batches_small l ?_ (by omega)
        intro hnil
        rw [hnil] at htail
        simp at htail
        exact hmod htail.symm
  unfold upsert_calls
  exact flatten_map_sub_batches _ hsmall

/-- Claim C6. Batch flush arithmetic: a run with `N` successfully processed
documents and batch size `B` (positive, at most the sink's internal
sub-batch size 40) makes exactly `⌈N / B⌉` bulk-upsert calls to the
backend, and the last call carries `N % B` documents (`B` when `B`
divides a positive `N`; no call at all when `N = 0`). -/
theorem batch_flush_arithmetic (B : Nat) (results : List (Option Document))
    (hB1 : 1 ≤ B) (hB40 : B ≤ 40) :
    (upsert_calls B results).length =
      (results.countP (fun r => r.isSome) + B - 1) / B ∧
    (upsert_calls B results).getLast?.map List.length =
      (if results.countP (fun r => r.isSome) = 0 then none
       else if results.countP (fun r => r.isSome) % B = 0 then some B
       else some (results.countP (fun r => r.isSome) % B)) := by
  have hcalls := upsert_calls_eq_all_flushes B results hB1 hB40
  have hmap := all_flushes_map_length B results hB1
  have hq := Nat.div_add_mod (results.countP (fun r => r.isSome)) B
  rw [hcalls]
  constructor
  · have hlen : (all_flushes B results).length =
        ((all_flushes B results).map List.length).length := by simp
    rw [hlen, hmap]
    by_cases hmod : results.countP (fun r => r.isSome) % B = 0
    · rw [if_pos hmod]
      rw [← div_ceil_eq _ B hB1, if_pos hmod]
      simp
    · rw [if_neg hmod]
      rw [← div_ceil_eq _ B hB1, if_neg hmod]
      simp
  · rw [← List.getLast?_map, hmap]
    by_cases hmod : results.countP (fun r => r.isSome) % B = 0
    · rw [if_pos hmod]
      rw [List.append_nil, getLast?_replicate]
      by_cases hz : results.countP (fun r => r.isSome) = 0
      · rw [if_pos hz]
        have h1 : results.countP (fun r => r.isSome) / B = 0 := by
          rw [hz]
          exact Nat.zero_div B
        rw [if_pos h1]
      · rw [if_neg hz, if_pos hmod]
        have hdiv : results.countP (fun r => r.isSome) / B ≠ 0 := by
          intro h0
          rw [h0] at hq
          simp at hq
          omega
        rw [if_neg hdiv]
    · rw [if_neg hmod]
      rw [List.getLast?_concat]
      have hz : results.countP (fun r => r.isSome) ≠ 0 := by omega
      rw [if_neg hz, if_neg hmod]

/-- The flush arithmetic at a concrete run: `N = 3`, `B = 2` gives two
upsert calls, the last of size `1 = 3 % 2`. -/
theorem batch_flush_arithmetic_witness :
    (upsert_calls 2 [some dummy_document, some dummy_document, none,
      some dummy_document]).length = 2 ∧
    (upsert_calls 2 [some dummy_document, some dummy_document, none,
      some dummy_document]).getLast?.map List.length = some 1 := by
  have h := batch_flush_arithmetic 2
    [some dummy_document, some dummy_document, none, some dummy_document]
    (by omega) (by omega)
  exact ⟨h.1, h.2⟩

/-! ## C1: pagination and the second-run filter -/

/-- With a positive page size and enough fuel, pagination collects the
`file_path` of every document in the index, in order. -/
lemma get_existing_go_eq (per_page : Nat) (hp : 1 ≤ per_page) :
    ∀ (fuel : Nat) (index : List Document) (existing : List String),
      index.length ≤ fuel →
      get_existing_file_paths_go per_page fuel index existing =
        existing ++ index.map Document.file_path := by
  intro fuel
  induction fuel with
  | zero =>
    intro index existing hlen
    have hnil : index = [] := List.length_eq_zero.mp (by omega)
    subst hnil
    simp [get_existing_file_paths_go]
  | succ fuel ih =>
    intro index existing hlen
    show (if index.take per_page = [] then existing
      else
        let existing' := existing ++ (index.take per_page).map
          Document.file_path
        if (index.take per_page).length < per_page then existing'
        else get_existing_file_paths_go per_page fuel (index.drop per_page)
          existing') = existing ++ index.map Document.file_path
    by_cases hemp : index.take per_page = []
    · rw [if_pos hemp]
      have hnil : index = [] := by
        rcases List.take_eq_nil_iff.mp hemp with h | h
        · omega
        · exact h
      subst hnil
      simp
    · rw [if_neg hemp]
      simp only []
      by_cases hshort : (index.take per_page).length < per_page
      · rw [if_pos hshort]
        have hsl : index.length < per_page := by
          rw [List.length_take] at hshort
          omega
        rw [List.take_of_length_le (by omega)]
      · rw [if_neg hshort]
        have hge : per_page ≤ index.length := by
          rw [List.length_take] at hshort
          omega
        rw [ih (index.drop per_page) _ (by simp; omega)]
        rw [List.append_assoc, ← List.map_append, List.take_append_drop]

/-- Lemma: `get_existing_file_paths` returns exactly the indexed dedup keys. -/
lemma get_existing_file_paths_eq (index : List Document) :
    get_existing_file_paths index = index.map Document.file_path := by
  simpa using get_existing_go_eq 250 (by omega) index.length index []
    le_rfl

/-- Claim C1. Idempotence of re-runs: over an unchanged corpus, if the
first run (no reprocess flag, no limit) successfully processes every
candidate file and its documents are committed to the index, then the
second run's filtered-candidate list — built by paginating the index for
existing dedup keys — is empty: no file is processed, so each file is
indexed at most once across the two runs. -/
theorem rerun_candidate_list_empty
    (all_files : List DriveFile) (index1 : List Document)
    (oracles : DriveFile → FileOracles) (now : DriveFile → Nat)
    (hsucc : ∀ f ∈ files_to_process (get_existing_file_paths index1)
        all_files none, (process_file (oracles f) f (now f)).isSome) :
    files_to_process
      (get_existing_file_paths (index1 ++
        (files_to_process (get_existing_file_paths index1) all_files
            none).filterMap (fun f => process_file (oracles f) f (now f))))
      all_files none = [] := by
  rw [get_existing_file_paths_eq]
  simp only [files_to_process]
  rw [List.filter_eq_nil_iff]
  intro f hf hpred
  simp only [Bool.and_eq_true, Bool.not_eq_true',
    decide_eq_false_iff_not] at hpred
  obtain ⟨hexc, hcon⟩ := hpred
  apply hcon
  rw [List.map_append]
  by_cases h1 : dedup_key f.id f.name ∈ get_existing_file_paths index1
  · rw [get_existing_file_paths_eq] at h1
    exact List.mem_append_left _ h1
  · apply List.mem_append_right
    have hmem : f ∈ files_to_process (get_existing_file_paths index1)
        all_files none := by
      simp only [files_to_process]
      refine List.mem_filter.mpr ⟨hf, ?_⟩
      simp only [Bool.and_eq_true, Bool.not_eq_true',
        decide_eq_false_iff_not]
      exact ⟨hexc, h1⟩
    have hs := hsucc f hmem
    obtain ⟨doc, hdoc⟩ := Option.isSome_iff_exists.mp hs
    have hpath := process_file_some_file_path _ _ _ _ hdoc
    have hdocmem : doc ∈ (files_to_process
        (get_existing_file_paths index1) all_files none).filterMap
        (fun f => process_file (oracles f) f (now f)) :=
      List.mem_filterMap.mpr ⟨f, hmem, hdoc⟩
    rw [← hpath]
    exact List.mem_map_of_mem _ hdocmem

/-- Idempotence at a concrete corpus: one file, an initially empty
index; after the first run commits its document, the second run's
candidate list is empty. -/
theorem rerun_candidate_list_empty_witness :
    files_to_process
      (get_existing_file_paths ([] ++
        (files_to_process (get_existing_file_paths []) [sample_file]
            none).filterMap
          (fun f => process_file ((fun _ => ok_oracles) f) f
            ((fun _ => (0 : Nat)) f))))
      [sample_file] none = [] :=
  rerun_candidate_list_empty [sample_file] [] (fun _ => ok_oracles)
    (fun _ => 0) (by decide)

/-! ## C7 -/

/-- Claim C7. Counterexample to "the reported succeeded count equals the
sink's per-record success accounting": one file is processed successfully
but its index write is rejected by the backend (per-item `success:
false`); the summary still reports 1 succeeded, while the sink's
accounting over the run's flushes total 0 — the index-write failure is
absorbed into the reported success count. -/
theorem summary_success_count_counterexample :
    (summary_counts 1 10 [some dummy_document]).1 = 1 ∧
    ((all_flushes 10 [some dummy_document]).map
      (index_documents_success (fun _ => false))).sum = 0 ∧
    (summary_counts 1 10 [some dummy_document]).1 ≠
      ((all_flushes 10 [some dummy_document]).map
        (index_documents_success (fun _ => false))).sum :=
  ⟨rfl, rfl, by decide⟩

/-- The number of successful and of failed per-file outcomes partition
the corpus. -/
lemma countP_isSome_add_isNone (results : List (Option Document)) :
    results.countP (fun r => r.isSome) +
      results.countP (fun r => r.isNone) = results.length := by
  induction results with
  | nil => rfl
  | cons r rs ih =>
    cases r <;> simp [List.countP_cons] <;> omega

/-- Claim C7, amended. The summary reports both counts, never swallowing
either, but the succeeded count is `len(files_to_process) - failed_count`
— the number of files that passed per-file processing — not the sink's
per-record upsert accounting, which `main` discards. -/
theorem summary_counts_amended (B : Nat)
    (results : List (Option Document)) :
    summary_counts results.length B results =
      (results.countP (fun r => r.isSome),
       results.countP (fun r => r.isNone)) := by
  unfold summary_counts
  simp only [run_loop_failed]
  have h := countP_isSome_add_isNone results
  have h1 : results.length -
      results.countP (fun r => r.isNone) =
      results.countP (fun r => r.isSome) := by omega
  rw [h1]

/-! ## C9 -/

/-- Claim C9. The CSV export does not contain every successfully processed
document: with batch size 1, a run that successfully processes (and
flushes to the index) one document reaches the export step with an empty
`processed_documents` buffer — the flush reset it — so no CSV is written
at all and the processed document appears in no row. (The flattening
itself is correct: `["A", "B"]` becomes `"A; B"` in any exported row.) -/
theorem csv_export_drops_processed_documents :
    exported_documents 1 [some dummy_document] = [] ∧
    export_to_csv (exported_documents 1 [some dummy_document]) = [] ∧
    (all_flushes 1 [some dummy_document]).flatten = [dummy_document] ∧
    flatten_list_field ["A", "B"] = "A; B" :=
  ⟨rfl, rfl, rfl, rfl⟩

/-! ## C5 -/

/-- Claim C5. Counterexample to the receipt scenario as claimed: on the
prescribed stubs the assembled record's `source_type` is `"secondary"`,
not `"primary"` — the code tags every document with the constant folder
label `"MG Assorted Documents"`, which is a member of
`SECONDARY_FOLDERS`. -/
theorem receipt_scenario_counterexample :
    (process_file receipt_oracles receipt_file 0).map
      Document.source_type = some "secondary" ∧
    (some "secondary" : Option String) ≠ some "primary" :=
  ⟨rfl, by decide⟩

/-- Claim C5, amended. The receipt scenario with the source type it
actually gets: the assembled record has `source_type = "secondary"`
(the folder label is in the secondary set), `people = ["J. Smith"]`,
`publication_date = "1955"`, a `text_for_search` containing both
`"receipt.png"` and `"J. Smith"`, and the stub embedding `[0.1, 0.2,
0.3]` unchanged. -/
theorem receipt_scenario_amended :
    ∃ doc, process_file receipt_oracles receipt_file 0 = some doc ∧
      doc.source_type = "secondary" ∧
      doc.people = ["J. Smith"] ∧
      doc.publication_date = "1955" ∧
      (∃ rest, doc.text_for_search = "receipt.png" ++ rest) ∧
      (∃ pre post, doc.text_for_search = pre ++ "J. Smith" ++ post) ∧
      doc.embedding = [0.1, 0.2, 0.3] := by
  refine ⟨{ file_path := "gdrive://fileid123/receipt.png",
            file_name := "receipt.png",
            drive_file_id := "fileid123",
            web_view_link := "",
            folder_path := "MG Assorted Documents",
            source_type := "secondary",
            people := ["J. Smith"],
            locations := [],
            dates := ["3 June 1955"],
            publication_date := "1955",
            summary := "A payment record.",
            ocr_content := "Paid $40 to J. Smith on 3 June 1955",
            text_for_search := "receipt.png A payment record. J. Smith  3 June 1955 Paid $40 to J. Smith on 3 June 1955",
            embedding := [0.1, 0.2, 0.3],
            created_at := 0,
            updated_at := 0 }, ?_, rfl, rfl, rfl, ?_, ?_, rfl⟩
  · rfl
  · exact ⟨" A payment record. J. Smith  3 June 1955 Paid $40 to J. Smith on 3 June 1955", by decide⟩
  · exact ⟨"receipt.png A payment record. ",
      "  3 June 1955 Paid $40 to J. Smith on 3 June 1955", by decide⟩

end ColdestVault
